import Mathlib

/-!
Verification development for the CookieBlock consent-crawler prototype.

The Python sources under `src/` are shallowly embedded below:
  * `base_scraper.py`  — `CrawlState`, `CookieCategory`, `collect_cookie_dat`,
    `static_get_request`
  * `onetrust_scraper.py` — `category_lookup_en`, the Variant A / Variant B
    extraction steps and `OneTrustScraper.scrape_website`
  * `cookiebot_scraper.py` — the cc.js bucket parser and
    `CookiebotScraper.scrape_website`
  * `termly_scraper.py` — `parse_termly_cookie_json`

Machine strings are modelled as `String` / `List Char`; Python dynamic values
appearing in cookie rows are modelled by the inductive `PV`; JSON payloads are
modelled by typed structures in which an `Option` field is `none` exactly when
the corresponding dictionary key is absent (so that a lookup raises `KeyError`);
fallible network or rendering steps are inputs to the embedded control flow.
Exceptions that the Python code does NOT catch are modelled with `Except`.
-/

set_option maxRecDepth 4096

/-- `CrawlState` from base_scraper.py (lines 35-49). -/
inductive CrawlState where
  | SUCCESS
  | CONN_FAILED
  | HTTP_ERROR
  | PARSE_ERROR
  | CMP_NOT_FOUND
  | BOT_DETECTION
  | MALFORMED_URL
  | SSL_ERROR
  | LIBRARY_ERROR
  | REGION_BLOCK
  | MALFORM_RESP
  | NO_COOKIES
  | JSON_DECODE_ERROR
  | UNKNOWN
deriving DecidableEq, Repr

/-- `CookieCategory` from base_scraper.py (lines 52-58). -/
inductive CookieCategory where
  | UNKNOWN
  | ESSENTIAL
  | FUNCTIONAL
  | ANALYTICAL
  | ADVERTISING
  | UNCLASSIFIED
deriving DecidableEq, Repr

/-- Python runtime values that flow into cookie rows (strings, ints, `None`,
and the nested lists produced by `ast.literal_eval` on Cookiebot tables). -/
inductive PV where
  | none
  | str (s : String)
  | int (n : Int)
  | list (xs : List PV)
deriving Repr

mutual

def PV.decEq : (a b : PV) → Decidable (a = b)
  | .none, .none => isTrue rfl
  | .str a, .str b =>
      match String.decEq a b with
      | isTrue h => isTrue (by rw [h])
      | isFalse h => isFalse (by intro hc; cases hc; exact h rfl)
  | .int a, .int b =>
      match Int.decEq a b with
      | isTrue h => isTrue (by rw [h])
      | isFalse h => isFalse (by intro hc; cases hc; exact h rfl)
  | .list xs, .list ys =>
      match PV.decEqList xs ys with
      | isTrue h => isTrue (by rw [h])
      | isFalse h => isFalse (by intro hc; cases hc; exact h rfl)
  | .none, .str _ => isFalse (by intro hc; cases hc)
  | .none, .int _ => isFalse (by intro hc; cases hc)
  | .none, .list _ => isFalse (by intro hc; cases hc)
  | .str _, .none => isFalse (by intro hc; cases hc)
  | .str _, .int _ => isFalse (by intro hc; cases hc)
  | .str _, .list _ => isFalse (by intro hc; cases hc)
  | .int _, .none => isFalse (by intro hc; cases hc)
  | .int _, .str _ => isFalse (by intro hc; cases hc)
  | .int _, .list _ => isFalse (by intro hc; cases hc)
  | .list _, .none => isFalse (by intro hc; cases hc)
  | .list _, .str _ => isFalse (by intro hc; cases hc)
  | .list _, .int _ => isFalse (by intro hc; cases hc)

def PV.decEqList : (xs ys : List PV) → Decidable (xs = ys)
  | [], [] => isTrue rfl
  | [], _ :: _ => isFalse (by intro hc; cases hc)
  | _ :: _, [] => isFalse (by intro hc; cases hc)
  | x :: xs, y :: ys =>
      match PV.decEq x y, PV.decEqList xs ys with
      | isTrue h1, isTrue h2 => isTrue (by rw [h1, h2])
      | isFalse h1, _ => isFalse (by intro hc; cases hc; exact h1 rfl)
      | _, isFalse h2 => isFalse (by intro hc; cases hc; exact h2 rfl)

end

instance : DecidableEq PV := PV.decEq

/- ---------------------------------------------------------------------------
Category resolution: `category_lookup_en` (onetrust_scraper.py lines 65-83).
The five regexes are alternations of plain literals under `re.IGNORECASE`,
searched (not anchored) in the category name; the one anchor `^ads.*` and the
one character class `\s+ads` are modelled explicitly.  ASCII case folding and
the six ASCII `\s` characters are used (all keyword literals are ASCII).
--------------------------------------------------------------------------- -/

/-- ASCII lower-casing, as applied by case-insensitive matching of the ASCII
keyword literals. -/
def lowerChar (c : Char) : Char :=
  if 'A' ≤ c ∧ c ≤ 'Z' then Char.ofNat (c.toNat + 32) else c

/-- Python regex `\s` restricted to ASCII: space, tab, newline, carriage
return, form feed, vertical tab. -/
def isPySpace (c : Char) : Bool :=
  c = ' ' ∨ c = '\t' ∨ c = '\n' ∨ c = '\r' ∨ c = Char.ofNat 12 ∨ c = Char.ofNat 11

/-- `needle` occurs as a contiguous substring of the haystack
(`re.search` on a literal alternative). -/
def hasSubstr (needle : List Char) : List Char → Bool
  | [] => needle.isEmpty
  | c :: rest => needle.isPrefixOf (c :: rest) || hasSubstr needle rest

/-- Search for `\s+ads`: some whitespace character immediately followed by
the literal `ads` (the regex fragment `.*\s+ads.*` of `advertise_pattern`). -/
def hasSpaceThenAds : List Char → Bool
  | [] => false
  | c :: rest => (isPySpace c && ("ads".toList).isPrefixOf rest) || hasSpaceThenAds rest

/-- `advertise_pattern.search` (onetrust_scraper.py lines 68-69):
`(^ads.*|.*\s+ads.*|Ad Selection|advertising|advertise|targeting|sale of
personal data|marketing|tracking|tracker|fingerprint)`, IGNORECASE. -/
def advertiseSearch (s : String) : Bool :=
  let l := s.toList.map lowerChar
  ("ads".toList).isPrefixOf l
  || hasSpaceThenAds l
  || hasSubstr ("ad selection".toList) l
  || hasSubstr ("advertising".toList) l
  || hasSubstr ("advertise".toList) l
  || hasSubstr ("targeting".toList) l
  || hasSubstr ("sale of personal data".toList) l
  || hasSubstr ("marketing".toList) l
  || hasSubstr ("tracking".toList) l
  || hasSubstr ("tracker".toList) l
  || hasSubstr ("fingerprint".toList) l

/-- `necessary_pattern.search`: `(necessary|essential|required)`, IGNORECASE. -/
def necessarySearch (s : String) : Bool :=
  let l := s.toList.map lowerChar
  hasSubstr ("necessary".toList) l
  || hasSubstr ("essential".toList) l
  || hasSubstr ("required".toList) l

/-- `analytical_pattern.search`:
`(measurement|analytic|anonym|research|performance)`, IGNORECASE. -/
def analyticalSearch (s : String) : Bool :=
  let l := s.toList.map lowerChar
  hasSubstr ("measurement".toList) l
  || hasSubstr ("analytic".toList) l
  || hasSubstr ("anonym".toList) l
  || hasSubstr ("research".toList) l
  || hasSubstr ("performance".toList) l

/-- `functional_pattern.search`: `(functional|preference|security|secure)`,
IGNORECASE. -/
def functionalSearch (s : String) : Bool :=
  let l := s.toList.map lowerChar
  hasSubstr ("functional".toList) l
  || hasSubstr ("preference".toList) l
  || hasSubstr ("security".toList) l
  || hasSubstr ("secure".toList) l

/-- `uncat_pattern.search`: `(uncategori[zs]e|unknown)`, IGNORECASE. -/
def uncatSearch (s : String) : Bool :=
  let l := s.toList.map lowerChar
  hasSubstr ("uncategorize".toList) l
  || hasSubstr ("uncategorise".toList) l
  || hasSubstr ("unknown".toList) l

/-- `category_lookup_en` (onetrust_scraper.py lines 74-83): the keyword groups
are tried in the source's fixed order; the first match wins; no match gives
`UNKNOWN` (the Python logs a warning and returns, it never raises). -/
def category_lookup_en (cat_name : String) : CookieCategory :=
  if advertiseSearch cat_name then .ADVERTISING
  else if necessarySearch cat_name then .ESSENTIAL
  else if analyticalSearch cat_name then .ANALYTICAL
  else if functionalSearch cat_name then .FUNCTIONAL
  else if uncatSearch cat_name then .UNCLASSIFIED
  else .UNKNOWN

/- ---------------------------------------------------------------------------
Collection of cookie data: `BaseScraper.collect_cookie_dat`
(base_scraper.py lines 362-376).
--------------------------------------------------------------------------- -/

/-- The eight arguments of one `collect_cookie_dat` call; also the shape of
one row appended to `database_cookie_data` (the row tuple is
`(site_url, name, domain, path, cat_id, cat_name, purpose, type)`). -/
structure CollectArgs where
  site_url : PV
  name : PV
  domain : PV
  path : PV
  cat_name : PV
  cat_id : CookieCategory
  purpose : PV
  ctype : PV
deriving DecidableEq, Repr

/-- The two class-internal data structures that `collect_cookie_dat` mutates:
`cookie_labels` (a Python dict keyed by the `(name, domain, path)` identity,
modelled as an insertion-ordered association list with unique keys) and
`database_cookie_data` (the list of rows later persisted). -/
structure CollectState where
  cookie_labels : List ((PV × PV × PV) × List PV)
  database_cookie_data : List CollectArgs
deriving DecidableEq, Repr

def emptyCollect : CollectState := ⟨[], []⟩

/-- Dict update performed on `cookie_labels`: if the identity is already a
key and the category name is not yet in its list, append it; if the identity
is absent, bind it to the one-element list. -/
def labelsInsert (k : PV × PV × PV) (cat : PV) :
    List ((PV × PV × PV) × List PV) → List ((PV × PV × PV) × List PV)
  | [] => [(k, [cat])]
  | (k', cats) :: rest =>
      if k' = k then (k', if cat ∈ cats then cats else cats ++ [cat]) :: rest
      else (k', cats) :: labelsInsert k cat rest

/-- `collect_cookie_dat`: update the label dict for the identity triple and
unconditionally append the full row to `database_cookie_data`.  No anomaly
check or log message exists in this function. -/
def collect_cookie_dat (st : CollectState) (a : CollectArgs) : CollectState :=
  { cookie_labels := labelsInsert (a.name, a.domain, a.path) a.cat_name st.cookie_labels,
    database_cookie_data := st.database_cookie_data ++ [a] }

/-- A sequence of `collect_cookie_dat` calls, in order. -/
def applyCollects (st : CollectState) (calls : List CollectArgs) : CollectState :=
  calls.foldl collect_cookie_dat st

/- ---------------------------------------------------------------------------
Plain HTTP fetch: `BaseScraper.static_get_request`
(base_scraper.py lines 300-343).  One attempt either yields a response with a
status code and body, or raises one of the exception classes that the
`except` arms distinguish; `raisedOther` stands for any exception outside the
named classes (the final `except Exception` arm).
--------------------------------------------------------------------------- -/

inductive FetchAttempt where
  | response (status : Nat) (body : String)
  | raisedHTTPError
  | raisedSSLError
  | raisedURLRequired
  | raisedMissingSchema
  | raisedConnectionError
  | raisedProxyError
  | raisedTooManyRedirects
  | raisedTimeout
  | raisedOther
deriving DecidableEq, Repr

/-- `static_get_request`: returns the optional response body together with the
`CrawlState` classification (the human-readable report string is elided).
Note that on an HTTP error status the response object (hence the body) is
still returned, exactly as in the source. -/
def static_get_request : FetchAttempt → Option String × CrawlState
  | .response status body =>
      if status = 525 then (some body, .SSL_ERROR)
      else if 400 ≤ status then (some body, .HTTP_ERROR)
      else (some body, .SUCCESS)
  | .raisedHTTPError => (none, .HTTP_ERROR)
  | .raisedSSLError => (none, .SSL_ERROR)
  | .raisedURLRequired => (none, .MALFORMED_URL)
  | .raisedMissingSchema => (none, .MALFORMED_URL)
  | .raisedConnectionError => (none, .CONN_FAILED)
  | .raisedProxyError => (none, .CONN_FAILED)
  | .raisedTooManyRedirects => (none, .CONN_FAILED)
  | .raisedTimeout => (none, .CONN_FAILED)
  | .raisedOther => (none, .UNKNOWN)

/-- The fetch classification exactly as the claim states it (spec-side
definition, for comparison): TLS failure → SSL_ERROR; DNS/connect/timeout/
redirect-loop → CONN_FAILED; malformed or missing scheme → MALFORMED_URL;
status 525 → SSL_ERROR; other status ≥ 400 → HTTP_ERROR; *otherwise SUCCESS*.
The claim names no failure class covering an exception outside these groups,
so its final "otherwise" clause assigns SUCCESS to `raisedOther`. -/
def fetch_spec_claimed : FetchAttempt → CrawlState
  | .response status _ =>
      if status = 525 then .SSL_ERROR
      else if 400 ≤ status then .HTTP_ERROR
      else .SUCCESS
  | .raisedHTTPError => .HTTP_ERROR
  | .raisedSSLError => .SSL_ERROR
  | .raisedURLRequired => .MALFORMED_URL
  | .raisedMissingSchema => .MALFORMED_URL
  | .raisedConnectionError => .CONN_FAILED
  | .raisedProxyError => .CONN_FAILED
  | .raisedTooManyRedirects => .CONN_FAILED
  | .raisedTimeout => .CONN_FAILED
  | .raisedOther => .SUCCESS

/-- The amended claim's classification (spec-side definition): identical to
the claim except that an exception outside the named classes yields UNKNOWN
with no body. -/
def fetch_spec_amended : FetchAttempt → Option String × CrawlState
  | .response status body =>
      if status = 525 then (some body, .SSL_ERROR)
      else if 400 ≤ status then (some body, .HTTP_ERROR)
      else (some body, .SUCCESS)
  | .raisedHTTPError => (none, .HTTP_ERROR)
  | .raisedSSLError => (none, .SSL_ERROR)
  | .raisedURLRequired => (none, .MALFORMED_URL)
  | .raisedMissingSchema => (none, .MALFORMED_URL)
  | .raisedConnectionError => (none, .CONN_FAILED)
  | .raisedProxyError => (none, .CONN_FAILED)
  | .raisedTooManyRedirects => (none, .CONN_FAILED)
  | .raisedTimeout => (none, .CONN_FAILED)
  | .raisedOther => (none, .UNKNOWN)

/- ---------------------------------------------------------------------------
Cookiebot extractor (cookiebot_scraper.py).

The cc.js body is scanned with the five bucket regexes of the form
`CookieConsentDialog\.cookieTable<Bucket> = (.*);` (lines 38-42); the greedy
capture runs to the last `;` on the matched line.  The captured text is fed
to `ast.literal_eval`; only the literal forms occurring in Cookiebot tables
(double-quoted strings without escape sequences, non-negative integers, and
nested lists) are modelled — any other input makes the embedded parser fail,
which corresponds to `literal_eval` raising.
--------------------------------------------------------------------------- -/

/-- Portion of the text on the current line (`.` in a Python regex does not
match a newline). -/
def lineOf (cs : List Char) : List Char := cs.takeWhile (fun c => c ≠ '\n')

/-- Greedy capture for `(.*);`: everything up to the last `;` of the line,
or `none` when the line holds no `;`. -/
def captureGreedy (line : List Char) : Option (List Char) :=
  match (line.reverse).findIdx? (fun c => c = ';') with
  | Option.none => Option.none
  | some k => some (line.take (line.length - k - 1))

/-- `re.search` for `<pre>(.*);`: try each position in turn; where the
literal prefix matches and the rest of that line holds a `;`, capture
greedily; otherwise backtrack to the next position. -/
def searchAssign (pre : List Char) : List Char → Option (List Char)
  | [] => Option.none
  | c :: rest =>
      if pre.isPrefixOf (c :: rest) then
        match captureGreedy (lineOf ((c :: rest).drop pre.length)) with
        | some cap => some cap
        | Option.none => searchAssign pre rest
      else searchAssign pre rest

/-- Whitespace accepted between tokens by `ast.literal_eval`. -/
def skipWsL (cs : List Char) : List Char :=
  cs.dropWhile (fun c => c = ' ' ∨ c = '\t' ∨ c = '\n' ∨ c = '\r')

/-- Scan a double-quoted string literal (escape sequences do not occur in the
Cookiebot tables and are not modelled: a backslash is taken verbatim). -/
def takeStr (cs : List Char) : Option (String × List Char) :=
  let s := cs.takeWhile (fun c => c ≠ '"')
  match cs.dropWhile (fun c => c ≠ '"') with
  | '"' :: r => some (String.mk s, r)
  | _ => Option.none

def digitsToNat (ds : List Char) : Nat :=
  ds.foldl (fun n c => n * 10 + (c.toNat - 48)) 0

mutual

/-- Recursive-descent evaluation of a Python literal (fuelled). -/
def parseLit : Nat → List Char → Option (PV × List Char)
  | 0, _ => Option.none
  | Nat.succ fuel, cs =>
      match skipWsL cs with
      | '"' :: rest =>
          match takeStr rest with
          | some (s, r) => some (PV.str s, r)
          | Option.none => Option.none
      | '[' :: rest => parseItems fuel rest []
      | c :: rest =>
          if c.isDigit then
            let ds := c :: rest.takeWhile Char.isDigit
            some (PV.int (Int.ofNat (digitsToNat ds)), rest.dropWhile Char.isDigit)
          else Option.none
      | [] => Option.none

/-- Comma-separated literal items up to the closing `]`. -/
def parseItems : Nat → List Char → List PV → Option (PV × List Char)
  | 0, _, _ => Option.none
  | Nat.succ fuel, cs, acc =>
      match skipWsL cs with
      | ']' :: rest => some (PV.list acc.reverse, rest)
      | cs' =>
          match parseLit fuel cs' with
          | Option.none => Option.none
          | some (v, r) =>
              match skipWsL r with
              | ',' :: r2 => parseItems fuel r2 (v :: acc)
              | ']' :: r2 => some (PV.list (v :: acc).reverse, r2)
              | _ => Option.none

end

/-- `ast.literal_eval` on a captured group: the whole capture must be one
literal (up to trailing whitespace), otherwise the call raises. -/
def literal_eval (cs : List Char) : Option PV :=
  match parseLit (2 * cs.length + 2) cs with
  | some (v, rest) => if (skipWsL rest).isEmpty then some v else Option.none
  | Option.none => Option.none

/-- The five Cookiebot buckets in the order scanned by `scrape_website`
(`cookiebot_catnames`, line 22) with their target category (`name_to_cat`,
lines 24-28) and the literal prefix of their pattern
(`category_patterns`, lines 38-42). -/
def cbBuckets : List (CookieCategory × String × List Char) :=
  [(.ESSENTIAL, "Necessary", ("CookieConsentDialog.cookieTableNecessary = ").toList),
   (.FUNCTIONAL, "Preference", ("CookieConsentDialog.cookieTablePreference = ").toList),
   (.ANALYTICAL, "Statistics", ("CookieConsentDialog.cookieTableStatistics = ").toList),
   (.ADVERTISING, "Advertising", ("CookieConsentDialog.cookieTableAdvertising = ").toList),
   (.UNCLASSIFIED, "Unclassified", ("CookieConsentDialog.cookieTableUnclassified = ").toList)]

/-- One entry of a bucket array: the code reads `c[0]`, `c[1]`, `c[2]` and
`c[5]`, so the entry must be a sequence with at least six elements or the
subscript raises (sequence indexing is modelled for lists). -/
def parseCBCookie (site catname : PV) (catid : CookieCategory) (c : PV) :
    Option CollectArgs :=
  match c with
  | PV.list items =>
      match items.get? 0, items.get? 1, items.get? 2, items.get? 5 with
      | some a, some b, some p, some t =>
          some ⟨site, a, b, PV.str "/", catname, catid, p, t⟩
      | _, _, _, _ => Option.none
  | _ => Option.none

/-- The per-cookie loop of one bucket: collects until an entry raises
(`false` flags the exception; entries collected before it are kept). -/
def cbCollectLoop (site catname : PV) (catid : CookieCategory) :
    List PV → List CollectArgs × Bool
  | [] => ([], true)
  | c :: rest =>
      match parseCBCookie site catname catid c with
      | Option.none => ([], false)
      | some a =>
          let r := cbCollectLoop site catname catid rest
          (a :: r.1, r.2)

/-- Result of the bucket loop of `CookiebotScraper.scrape_website`
(lines 238-252): either the `except` arm ran (with the collect calls already
made), or the loop completed with the final `cookie_count`. -/
inductive CBParseOut where
  | excepted (calls : List CollectArgs)
  | completed (calls : List CollectArgs) (count : Nat)
deriving DecidableEq, Repr

def cbGo (site : PV) (body : List Char) :
    List (CookieCategory × String × List Char) → List CollectArgs → Nat → CBParseOut
  | [], acc, cnt => .completed acc cnt
  | (cid, cn, pre) :: rest, acc, cnt =>
      match searchAssign pre body with
      | Option.none => cbGo site body rest acc cnt
      | some cap =>
          match literal_eval cap with
          | Option.none => .excepted acc
          | some (PV.list cs) =>
              let r := cbCollectLoop site (PV.str cn) cid cs
              if r.2 then cbGo site body rest (acc ++ r.1) (cnt + cs.length)
              else .excepted (acc ++ r.1)
          | some _ => .excepted acc

/-- The five-bucket extraction loop on the cc.js body.  `cookie_count` is
incremented by the length of each matched bucket; every counted cookie is
also collected, so on completion the count equals the number of collect
calls. -/
def cookiebot_parse_buckets (site : PV) (body : List Char) : CBParseOut :=
  cbGo site body cbBuckets [] 0

def cbParseCalls : CBParseOut → List CollectArgs
  | .excepted calls => calls
  | .completed calls _ => calls

/-- Terminal outcome of a Cookiebot crawl plus the boolean returned by
`scrape_website`. -/
inductive CBResult where
  | done (recorded : CrawlState) (retval : Bool)
deriving DecidableEq, Repr

/-- Lines 254-274: exception → MALFORM_RESP; completion with zero count →
NO_COOKIES; otherwise SUCCESS. -/
def cookiebot_outcome_of_parse : CBParseOut → CBResult
  | .excepted _ => .done .MALFORM_RESP false
  | .completed _ n => if n = 0 then .done .NO_COOKIES false else .done .SUCCESS true

/-- Literal `cookiedomainwarning='Error: ` (the apostrophe is character 39). -/
def dwLit1 : List Char :=
  ("cookiedomainwarning=").toList ++ [Char.ofNat 39] ++ ("Error: ").toList

def dwLit2 : List Char := (" is not a valid domain").toList

/-- After the first literal of the domain-warning regex: any run of
non-newline characters, then the second literal, then one more arbitrary
non-newline character (the regex ends in an unescaped `.`). -/
def dwAfter : List Char → Bool
  | [] => false
  | c :: rest =>
      (dwLit2.isPrefixOf (c :: rest) &&
        (match (c :: rest).drop dwLit2.length with
         | c2 :: _ => c2 ≠ '\n'
         | [] => false))
      || (c ≠ '\n' && dwAfter rest)

/-- `re.search("cookiedomainwarning='Error: .* is not a valid domain.", js)`
(cookiebot_scraper.py line 229). -/
def searchDomainWarning : List Char → Bool
  | [] => false
  | c :: rest =>
      (dwLit1.isPrefixOf (c :: rest) && dwAfter ((c :: rest).drop dwLit1.length))
      || searchDomainWarning rest

/-- Inputs of one `CookiebotScraper.scrape_website` run.  The initial page
fetch (line 201) and the cc.js fetch (line 219) go through
`static_get_request`; the Selenium-based cbid discovery (line 209) is a
rendered-page step and enters the model as its classified `CrawlState`;
the referer resolution (line 215) only affects the request URL and report
strings, which are elided. -/
structure CBIn where
  site : PV
  initialFetch : FetchAttempt
  cbid : CrawlState
  ccFetch : FetchAttempt

/-- `CookiebotScraper.scrape_website` (lines 193-274). -/
def cookiebot_scrape (inp : CBIn) (st : CollectState) : CBResult × CollectState :=
  let r1 := static_get_request inp.initialFetch
  if r1.2 ≠ .SUCCESS then (.done r1.2 false, st)
  else if inp.cbid ≠ .SUCCESS then (.done inp.cbid false, st)
  else
    let r2 := static_get_request inp.ccFetch
    if r2.2 ≠ .SUCCESS then (.done .LIBRARY_ERROR false, st)
    else
      match r2.1 with
      | Option.none => (.done .UNKNOWN false, st)
      | some body =>
          let js := body.toList
          if hasSubstr (("CookieConsent.setOutOfRegion").toList) js then
            (.done .REGION_BLOCK false, st)
          else if searchDomainWarning js then (.done .LIBRARY_ERROR false, st)
          else if js.all isPySpace then (.done .LIBRARY_ERROR false, st)
          else
            let out := cookiebot_parse_buckets inp.site js
            (cookiebot_outcome_of_parse out, applyCollects st (cbParseCalls out))

/- ---------------------------------------------------------------------------
OneTrust extractor (onetrust_scraper.py).

Variant A step 2 (`variantA_try_retrieve_ruleset_id`, lines 136-171): note
that `json.loads(ruleset_json.text)` at line 152 sits OUTSIDE the `try`
block, so a JSON decode failure is an uncaught exception; the `try` catches
only `AttributeError` and `KeyError`.  Variant A step 3
(`variantA_get_and_parse_json`, lines 174-239) catches all of its parse
failures per ruleset.  Variant B's steps classify their own failures except
that step 2's network fetch (line 290) is also outside its `try`.

JSON documents are typed; an `Option` field is `none` exactly when the key
(or nested key path) is absent, which makes the corresponding subscript
raise `KeyError`.  Cookie entries are modelled with their mandatory `Name`
and `Host` keys present (the sources annotate them "not null").
--------------------------------------------------------------------------- -/

/-- One entry of the `RuleSet` array of the ruleset JSON:
`lang = none` models a missing `LanguageSwitcherPlaceholder` key (KeyError),
`some Option.none` a `null` value (skipped), `some (some vs)` the list of
values of the dict; `id = none` models a missing `Id` key. -/
structure A2Rule where
  lang : Option (Option (List String))
  id : Option String
deriving DecidableEq, Repr

/-- Input to Variant A step 2: the GET of `{origin}/consent/{dd}/{dd}.json`
either fails with a classified state, succeeds with a non-JSON body
(`badJson`, making the uncovered `json.loads` raise), or yields a document
whose `RuleSet` key is absent (`Option.none`), `null` (`some Option.none`)
or an array. -/
inductive A2In where
  | fetchFail (s : CrawlState)
  | badJson
  | doc (ruleSet : Option (Option (List A2Rule)))
deriving DecidableEq, Repr

/-- The `for r in rulesets` loop: `none` models a `KeyError` escape into the
step's `except` arm; otherwise the accumulated English ruleset ids. -/
def a2Loop : List A2Rule → List String → Option (List String)
  | [], acc => some acc
  | r :: rest, acc =>
      match r.lang with
      | Option.none => Option.none
      | some Option.none => a2Loop rest acc
      | some (some vals) =>
          if "en" ∈ vals then
            match r.id with
            | Option.none => Option.none
            | some i => a2Loop rest (acc ++ [i])
          else a2Loop rest acc

/-- `variantA_try_retrieve_ruleset_id`: `Except.error` is an exception that
escapes the function (the uncaught `json.loads` failure). -/
def variantA_try_retrieve_ruleset_id (a : A2In) :
    Except Unit (List String × CrawlState) :=
  match a with
  | .fetchFail s => .ok ([], s)
  | .badJson => .error ()
  | .doc Option.none => .ok ([], .PARSE_ERROR)
  | .doc (some Option.none) => .ok ([], .PARSE_ERROR)
  | .doc (some (some rules)) =>
      match a2Loop rules [] with
      | Option.none => .ok ([], .PARSE_ERROR)
      | some ids => if ids.isEmpty then .ok ([], .PARSE_ERROR) else .ok (ids, .SUCCESS)

/-- A cookie entry of a OneTrust consent JSON (`Name` and `Host` mandatory,
`description` optional). -/
structure OTCookieJ where
  cname : PV
  chost : PV
  description : Option PV
deriving DecidableEq, Repr

/-- A third-party host entry of a Variant A ruleset (`Cookies` key may be
absent → KeyError). -/
structure HostDat where
  cookies : Option (List OTCookieJ)
deriving DecidableEq, Repr

/-- A group of a Variant A `en.json` ruleset document (each `none` field is
a missing key → KeyError, caught per ruleset). -/
structure AGroup where
  groupName : Option String
  firstParty : Option (List OTCookieJ)
  hosts : Option (List HostDat)
deriving DecidableEq, Repr

/-- One Variant A ruleset document: the declared culture string (`none` for
a missing `DomainData`/`Language`/`Culture` path) and the `Groups` array
(`none` for a missing key). -/
structure ADoc where
  culture : Option String
  groups : Option (List AGroup)
deriving DecidableEq, Repr

/-- Outcome of fetching one ruleset id in Variant A step 3: a failed GET
(logged, skipped), a JSON decode error (caught, skipped), or a document. -/
inductive RulesetResult where
  | fetchFail (s : CrawlState)
  | decodeError
  | doc (d : ADoc)
deriving DecidableEq, Repr

def otCallOf (site : PV) (cn : String) (cid : CookieCategory) (c : OTCookieJ) :
    CollectArgs :=
  ⟨site, c.cname, c.chost, PV.str "/", PV.str cn, cid, c.description.getD PV.none, PV.none⟩

/-- The `Hosts` loop of one Variant A group; the `Bool` flags a `KeyError`
(missing `Cookies`) that aborts the whole ruleset, keeping prior collects. -/
def aHostsLoop (site : PV) (cn : String) (cid : CookieCategory) :
    List HostDat → List CollectArgs × Bool
  | [] => ([], false)
  | h :: rest =>
      match h.cookies with
      | Option.none => ([], true)
      | some cs =>
          let calls := cs.map (otCallOf site cn cid)
          let r := aHostsLoop site cn cid rest
          (calls ++ r.1, r.2)

/-- The `Groups` loop of one Variant A ruleset (collects first-party
cookies, then per-host cookies; a missing key aborts the ruleset). -/
def aGroupsLoop (site : PV) : List AGroup → List CollectArgs × Bool
  | [] => ([], false)
  | g :: rest =>
      match g.groupName with
      | Option.none => ([], true)
      | some cn =>
          let cid := category_lookup_en cn
          match g.firstParty with
          | Option.none => ([], true)
          | some fps =>
              let fcalls := fps.map (otCallOf site cn cid)
              match g.hosts with
              | Option.none => (fcalls, true)
              | some hs =>
                  let hr := aHostsLoop site cn cid hs
                  if hr.2 then (fcalls ++ hr.1, true)
                  else
                    let r := aGroupsLoop site rest
                    (fcalls ++ hr.1 ++ r.1, r.2)

/-- Collect calls contributed by one ruleset id in Variant A step 3: fetch
and decode failures and a non-English culture contribute nothing; a parse
exception mid-ruleset is caught, keeping the calls already made.  The
culture test is the substring check `"en" in culture`. -/
def aRulesetCalls (site : PV) : RulesetResult → List CollectArgs
  | .fetchFail _ => []
  | .decodeError => []
  | .doc d =>
      match d.culture with
      | Option.none => []
      | some c =>
          if hasSubstr ("en".toList) c.toList then
            match d.groups with
            | Option.none => []
            | some gs => (aGroupsLoop site gs).1
          else []

/-- `variantA_get_and_parse_json` (lines 174-239): `cookie_count` equals the
number of collect calls (they are incremented in lockstep); zero extracted
cookies → PARSE_ERROR, otherwise SUCCESS. -/
def variantA_get_and_parse_json (site : PV) (rulesets : List RulesetResult) :
    List CollectArgs × CrawlState :=
  let calls := rulesets.foldl (fun acc r => acc ++ aRulesetCalls site r) []
  if calls.isEmpty then ([], .PARSE_ERROR) else (calls, .SUCCESS)

/-- Category-name source for a Variant B group: the `Parent` key may be
absent (`missing` → KeyError), `null` (use the group's own name), or a
parent object whose nested
`GroupLanguagePropertiesSets[0].GroupName.Text` path resolves to `t`
(`named (some t)`) or raises (`named none`). -/
inductive OTParentB where
  | missing
  | null
  | named (t : Option String)
deriving DecidableEq, Repr

/-- A group of the Variant B inline-script object (`groupName` is the
group's own `GroupLanguagePropertiesSets[0].GroupName.Text` path, `none`
when it raises; `cookies = none` models a missing `Cookies` key). -/
structure OTGroupB where
  parent : OTParentB
  groupName : Option String
  cookies : Option (List OTCookieJ)
deriving DecidableEq, Repr

/-- The `Groups` loop of `variantB_extract_cookies_from_dict`; the `Bool`
flags the `KeyError`/`AttributeError` escape into the `except` arm, which
keeps the collect calls already made. -/
def bGroupsLoop (site : PV) : List OTGroupB → List CollectArgs × Bool
  | [] => ([], false)
  | g :: rest =>
      let cn? : Option String :=
        match g.parent with
        | .missing => Option.none
        | .null => g.groupName
        | .named t => t
      match cn? with
      | Option.none => ([], true)
      | some cn =>
          let cid := category_lookup_en cn
          match g.cookies with
          | Option.none => ([], true)
          | some cs =>
              let calls := cs.map (otCallOf site cn cid)
              let r := bGroupsLoop site rest
              (calls ++ r.1, r.2)

/-- Result of `variantB_extract_cookies_from_dict` (lines 322-358): the
collect calls made, the returned cookie count (0 on the exception path,
which is the only path returning PARSE_ERROR), the `CrawlState`, and
whether the `except` arm ran. -/
structure BExtract where
  calls : List CollectArgs
  count : Nat
  state : CrawlState
  aborted : Bool
deriving DecidableEq, Repr

/-- `variantB_extract_cookies_from_dict`: input `Option.none` models a
consent dict without a `Groups` key (immediate KeyError, no collects);
an exception returns count 0 and PARSE_ERROR; completion with zero cookies
returns MALFORM_RESP; otherwise SUCCESS with the count. -/
def variantB_extract_cookies_from_dict (site : PV) (data : Option (List OTGroupB)) :
    BExtract :=
  match data with
  | Option.none => ⟨[], 0, .PARSE_ERROR, true⟩
  | some gs =>
      let r := bGroupsLoop site gs
      if r.2 then ⟨r.1, 0, .PARSE_ERROR, true⟩
      else if r.1.isEmpty then ⟨[], 0, .MALFORM_RESP, false⟩
      else ⟨r.1, r.1.length, .SUCCESS, false⟩

/-- Result of one `OneTrustScraper.scrape_website` call: either an uncaught
exception escaped the method (`raisedEx`, with whether Variant B had been
entered), or exactly one outcome was recorded via `update_crawl_stats`
together with the boolean return value and whether Variant B ran. -/
inductive OTResult where
  | raisedEx (triedB : Bool)
  | done (recorded : CrawlState) (retval : Bool) (triedB : Bool)
deriving DecidableEq, Repr

def otTriedB : OTResult → Bool
  | .raisedEx b => b
  | .done _ _ b => b

/-- Inputs of one `OneTrustScraper.scrape_website` run.  `initial` is the
classification of the first `static_get_request` (line 370); `a1` the state
of `variantA_try_retrieve_uuid` (a rendered-page step whose internal broad
`except` makes it total); `a2`/`a3` the inputs of Variant A steps 2 and 3;
`b1` the state of `variantB_retrieve_script_path`; `b2` the result of
`variantB_parse_script_for_object` (its un-guarded network fetch can raise,
hence `Except`). -/
structure OTIn where
  site : PV
  initial : CrawlState
  a1 : CrawlState
  a2 : A2In
  a3 : List RulesetResult
  b1 : CrawlState
  b2 : Except Unit (Option (List OTGroupB) × CrawlState)

/-- The Variant B block of `scrape_website` (lines 403-429): any step
failure raises `VariantFailedException`, caught at line 427, which records
that step's state as the site's single outcome. -/
def onetrust_variantB (inp : OTIn) (st : CollectState) : OTResult × CollectState :=
  if inp.b1 ≠ .SUCCESS then (.done inp.b1 false true, st)
  else
    match inp.b2 with
    | .error _ => (.raisedEx true, st)
    | .ok (data, s2) =>
        if s2 ≠ .SUCCESS then (.done s2 false true, st)
        else
          let r := variantB_extract_cookies_from_dict inp.site data
          if r.state = .SUCCESS then (.done .SUCCESS true true, applyCollects st r.calls)
          else (.done r.state false true, applyCollects st r.calls)

/-- `OneTrustScraper.scrape_website` (lines 361-429): initial fetch failure
is terminal; any classified Variant A step failure raises
`VariantFailedException`, is caught at line 400 and falls through to
Variant B; an uncaught exception (e.g. the Variant A step 2 JSON decode)
escapes the method. -/
def onetrust_scrape (inp : OTIn) (st : CollectState) : OTResult × CollectState :=
  if inp.initial ≠ .SUCCESS then (.done inp.initial false false, st)
  else if inp.a1 ≠ .SUCCESS then onetrust_variantB inp st
  else
    match variantA_try_retrieve_ruleset_id inp.a2 with
    | .error _ => (.raisedEx false, st)
    | .ok (_ids, s2) =>
        if s2 ≠ .SUCCESS then onetrust_variantB inp st
        else
          let r := variantA_get_and_parse_json inp.site inp.a3
          if r.2 = .SUCCESS then (.done .SUCCESS true false, applyCollects st r.1)
          else onetrust_variantB inp (applyCollects st r.1)

/- ---------------------------------------------------------------------------
Termly extractor (termly_scraper.py): `parse_termly_cookie_json`
(lines 161-225).  The cookies JSON payload maps category-name keys to
entries; a well-formed entry is an array whose elements are cookie dicts
with optional string fields, but JSON permits anything: a non-array entry
makes the `for cookie in entry` loop raise, and a non-dict array element
makes `cookie.keys()` raise.  Both exceptions are caught only by the broad
`except Exception` arm (lines 211-214), which returns PARSE_ERROR — the
`collect_cookie_dat` calls already made inside the walk stay committed.
The category-mismatch and unknown-attribute checks only set the diagnostic
`weird_stuff_occurred` flag and never change the outcome; they are not
modelled.
--------------------------------------------------------------------------- -/

structure TermlyCookie where
  name : Option PV
  domain : Option PV
  en_us : Option PV
  tracker_type : Option PV
deriving DecidableEq, Repr

/-- One value of the payload's `cookies` map: either an array — whose
elements are cookie dicts, with `Option.none` standing for a non-dict
element (its `cookie.keys()` access raises) — or a non-iterable value
(`for cookie in entry` raises). -/
inductive TermlyEntry where
  | items (cs : List (Option TermlyCookie))
  | notIterable
deriving DecidableEq, Repr

/-- `name_to_cat` of termly_scraper.py (lines 22-27); keys not in the dict
yield `Option.none` (the entry is logged and skipped before it is ever
iterated). -/
def termly_name_to_cat (s : String) : Option CookieCategory :=
  if s = "essential" then some .ESSENTIAL
  else if s = "performance" then some .FUNCTIONAL
  else if s = "analytics" then some .ANALYTICAL
  else if s = "advertising" then some .ADVERTISING
  else if s = "social_networking" then some .UNKNOWN
  else if s = "unclassified" then some .UNCLASSIFIED
  else Option.none

def termlyCallOf (url : PV) (cn : String) (cid : CookieCategory) (ck : TermlyCookie) :
    CollectArgs :=
  ⟨url, ck.name.getD PV.none, ck.domain.getD PV.none, PV.str "/", PV.str cn, cid,
   ck.en_us.getD PV.none, ck.tracker_type.getD PV.none⟩

/-- The `for cookie in entry` loop of one bucket: a non-dict element raises
(`cookie.keys()`, line 184) before that cookie is counted or collected; the
`Bool` flags the exception, keeping the calls already made. -/
def termlyCookiesLoop (url : PV) (cn : String) (cid : CookieCategory) :
    List (Option TermlyCookie) → List CollectArgs × Bool
  | [] => ([], false)
  | Option.none :: _ => ([], true)
  | some ck :: rest =>
      let r := termlyCookiesLoop url cn cid rest
      (termlyCallOf url cn cid ck :: r.1, r.2)

/-- The bucket walk of `parse_termly_cookie_json` (lines 173-210): unknown
category keys are skipped; a raising entry aborts the whole walk into the
broad `except` arm, keeping the collect calls already made. -/
def termlyWalk (url : PV) : List (String × TermlyEntry) → List CollectArgs × Bool
  | [] => ([], false)
  | b :: rest =>
      match termly_name_to_cat b.1 with
      | Option.none => termlyWalk url rest
      | some cid =>
          match b.2 with
          | .notIterable => ([], true)
          | .items cs =>
              let r := termlyCookiesLoop url b.1 cid cs
              if r.2 then (r.1, true)
              else
                let r2 := termlyWalk url rest
                (r.1 ++ r2.1, r2.2)

/-- `parse_termly_cookie_json`: input `Option.none` models a payload without
a `cookies` key (MALFORM_RESP); an exception during the walk returns
PARSE_ERROR while earlier collect calls stay committed; otherwise
`cookie_count` equals the number of collect calls, zero → NO_COOKIES and
more → SUCCESS. -/
def parse_termly_cookie_json (url : PV)
    (cookieDict : Option (List (String × TermlyEntry))) :
    List CollectArgs × CrawlState :=
  match cookieDict with
  | Option.none => ([], .MALFORM_RESP)
  | some buckets =>
      let r := termlyWalk url buckets
      if r.2 then (r.1, .PARSE_ERROR)
      else if r.1.isEmpty then ([], .NO_COOKIES)
      else (r.1, .SUCCESS)

/-- `TermlyScraper.scrape_website` (lines 227-242): the three-step JSON
retrieval is a prior stage entering as its classified state and payload;
the parse state is recorded and the return value is its comparison with
SUCCESS. -/
def termly_scrape (retrieveState : CrawlState)
    (payload : Option (List (String × TermlyEntry))) (url : PV)
    (st : CollectState) : (CrawlState × Bool) × CollectState :=
  if retrieveState ≠ .SUCCESS then ((retrieveState, false), st)
  else
    let r := parse_termly_cookie_json url payload
    ((r.2, r.2 = .SUCCESS), applyCollects st r.1)

/- ---------------------------------------------------------------------------
OneTrust Variant B step 1: `variantB_retrieve_script_path`
(onetrust_scraper.py lines 243-279) and the `variantB_patterns` list
(lines 46-51).  Each pattern is
`https://<domain>/consent/<uuid-pattern>[a-zA-Z0-9_-]*\.js`, matched with
`pattern.match` (anchored at the start of the `src` attribute, trailing
characters permitted).
--------------------------------------------------------------------------- -/

def isHexDigitAscii (c : Char) : Bool :=
  ('0' ≤ c ∧ c ≤ '9') ∨ ('a' ≤ c ∧ c ≤ 'f') ∨ ('A' ≤ c ∧ c ≤ 'F')

/-- Consume exactly `n` hex digits, returning the remainder. -/
def takeHex : Nat → List Char → Option (List Char)
  | 0, cs => some cs
  | Nat.succ _, [] => Option.none
  | Nat.succ n, c :: cs => if isHexDigitAscii c then takeHex n cs else Option.none

def expectDash : List Char → Option (List Char)
  | [] => Option.none
  | c :: cs => if c = '-' then some cs else Option.none

/-- Consume the `uuid_pattern` 8-4-4-4-12 hex shape (base_scraper.py
line 32), returning the remainder of the input. -/
def matchUuid (cs : List Char) : Option (List Char) :=
  (takeHex 8 cs).bind fun r1 =>
    (expectDash r1).bind fun r2 =>
      (takeHex 4 r2).bind fun r3 =>
        (expectDash r3).bind fun r4 =>
          (takeHex 4 r4).bind fun r5 =>
            (expectDash r5).bind fun r6 =>
              (takeHex 4 r6).bind fun r7 =>
                (expectDash r7).bind fun r8 => takeHex 12 r8

def isIdTailChar (c : Char) : Bool :=
  ('a' ≤ c ∧ c ≤ 'z') ∨ ('A' ≤ c ∧ c ≤ 'Z') ∨ ('0' ≤ c ∧ c ≤ '9') ∨ c = '_' ∨ c = '-'

/-- Match `[a-zA-Z0-9_-]*\.js` at the head of the input (with the regex
engine's backtracking: some split of the input into class characters
followed by the literal `.js`); trailing characters are permitted because
`pattern.match` only anchors the start. -/
def matchIdTailJs : List Char → Bool
  | [] => false
  | c :: rest =>
      (c = '.' && ("js".toList).isPrefixOf rest) || (isIdTailChar c && matchIdTailJs rest)

/-- One Variant B URL pattern: the literal `https://<domain>/consent/`
stem, then a UUID, then the id tail and `.js`. -/
def variantB_pattern_match (stem : List Char) (s : List Char) : Bool :=
  stem.isPrefixOf s &&
    (match matchUuid (s.drop stem.length) with
     | some rest => matchIdTailJs rest
     | Option.none => false)

def v2_cookielaw_stem : List Char := ("https://cdn.cookielaw.org/consent/").toList
def v2_optanon_stem : List Char := ("https://optanon.blob.core.windows.net/consent/").toList
def v2_cookiepro_cdn_stem : List Char := ("https://cookie-cdn.cookiepro.com/consent/").toList
def v2_cookiepro_blob_stem : List Char := ("https://cookiepro.blob.core.windows.net/consent/").toList

/-- `variantB_patterns` (onetrust_scraper.py line 51): the list is
`[v2_cookielaw_pattern, v2_optanon_pattern, v2_cookiepro_cdn_pattern,
v2_cookiepro_cdn_pattern]` — the cookie-cdn.cookiepro.com pattern appears
twice and the defined `v2_cookiepro_blob_pattern` (line 49) is never
listed. -/
def variantB_patterns : List (List Char) :=
  [v2_cookielaw_stem, v2_optanon_stem, v2_cookiepro_cdn_stem, v2_cookiepro_cdn_stem]

/-- `variantB_retrieve_script_path` reduced to its script scan (lines
254-279): for each script element's `src` attribute in order, try every
pattern of `variantB_patterns`; the first match returns SUCCESS (with the
matched URL, elided); if no tag matches, PARSE_ERROR.  (The navigation
failure, stale-element and timeout paths enter earlier or are logged and
skipped.) -/
def variantB_retrieve_script_path (srcs : List (Option (List Char))) : CrawlState :=
  match srcs with
  | [] => .PARSE_ERROR
  | src :: rest =>
      match src with
      | Option.none => variantB_retrieve_script_path rest
      | some s =>
          if variantB_patterns.any (fun stem => variantB_pattern_match stem s) then .SUCCESS
          else variantB_retrieve_script_path rest

/- ---------------------------------------------------------------------------
Derived observations on crawl inputs, and concrete inputs used by the
claim-level theorems.
--------------------------------------------------------------------------- -/

/-- The one non-atomic failure mode of a OneTrust crawl: Variant B step 3 is
reached with a well-formed step-2 result and its extraction hits the
`except` arm after having already made collect calls. -/
def otB3PartialCommit (inp : OTIn) : Bool :=
  match inp.b2 with
  | .error _ => false
  | .ok (data, s) =>
      (s == CrawlState.SUCCESS) &&
        (let r := variantB_extract_cookies_from_dict inp.site data
         !(r.state == CrawlState.SUCCESS) && !r.calls.isEmpty)

/-- The one non-atomic failure mode of a Cookiebot crawl: the cc.js body is
reached and the bucket loop hits its `except` arm after having already made
collect calls. -/
def cbParsePartialCommit (inp : CBIn) : Bool :=
  match static_get_request inp.ccFetch with
  | (some body, s) =>
      (s == CrawlState.SUCCESS) &&
        (match cookiebot_parse_buckets inp.site body.toList with
         | .excepted calls => !calls.isEmpty
         | .completed _ _ => false)
  | (Option.none, _) => false

/-- The one non-atomic failure mode of a Termly crawl: the bucket walk hits
the broad `except` arm after having already made collect calls. -/
def termlyMidCommit (payload : Option (List (String × TermlyEntry))) (url : PV) :
    Bool :=
  match payload with
  | Option.none => false
  | some buckets =>
      (termlyWalk url buckets).2 && !(termlyWalk url buckets).1.isEmpty

/-- A payload of the shape `{"cookies": {"essential": [{"name": "a"}],
"performance": 42}}`: one well-formed essential cookie, then a non-iterable
`performance` entry that raises after the first row was collected. -/
def termlyBadPayload : List (String × TermlyEntry) :=
  [("essential", .items [some ⟨some (PV.str "a"), Option.none, Option.none, Option.none⟩]),
   ("performance", .notIterable)]

/-- "Variant A fails at one of its three steps with a classified outcome":
the initial fetch succeeded and either step 1 returned a non-SUCCESS state,
or step 2 returned one (without raising), or steps 1-2 succeeded and step 3
completed with a non-SUCCESS state (zero cookies). -/
def otAFailsClassified (inp : OTIn) : Bool :=
  (inp.initial == CrawlState.SUCCESS) &&
    (!(inp.a1 == CrawlState.SUCCESS) ||
      (match variantA_try_retrieve_ruleset_id inp.a2 with
       | .error _ => false
       | .ok (_, s) =>
           !(s == CrawlState.SUCCESS) ||
             !((variantA_get_and_parse_json inp.site inp.a3).2 == CrawlState.SUCCESS)))

/-- Variant B's own failing outcome, when Variant B fails with a classified
state: the state of its first failing step. -/
def otBFailState (inp : OTIn) : Option CrawlState :=
  if inp.b1 ≠ CrawlState.SUCCESS then some inp.b1
  else
    match inp.b2 with
    | .error _ => Option.none
    | .ok (data, s) =>
        if s ≠ CrawlState.SUCCESS then some s
        else
          let r := variantB_extract_cookies_from_dict inp.site data
          if r.state ≠ CrawlState.SUCCESS then some r.state else Option.none

/-- A Variant B group carrying one cookie (category name "Targeting
Cookies"). -/
def exGroupOk : OTGroupB :=
  ⟨.null, some "Targeting Cookies", some [⟨PV.str "_ga", PV.str "x.com", Option.none⟩]⟩

/-- A Variant B group whose `Cookies` key is missing (raises `KeyError`
after the previous group was collected). -/
def exGroupBad : OTGroupB := ⟨.null, some "Other", Option.none⟩

/-- OneTrust crawl input in which Variant A step 1 fails, Variant B reaches
step 3 and the extraction raises on the second group after collecting the
first group's cookie. -/
def otPartialIn : OTIn :=
  ⟨PV.str "site", .SUCCESS, .PARSE_ERROR, .fetchFail .PARSE_ERROR, [], .SUCCESS,
   .ok (some [exGroupOk, exGroupBad], .SUCCESS)⟩

/-- OneTrust crawl input in which Variant A step 1 fails and Variant B
reaches step 3 with an empty `Groups` array: the extraction runs to
completion with zero records. -/
def otZeroIn : OTIn :=
  ⟨PV.str "site", .SUCCESS, .PARSE_ERROR, .fetchFail .PARSE_ERROR, [], .SUCCESS,
   .ok (some [], .SUCCESS)⟩

/-- OneTrust crawl input in which the ruleset JSON fetch of Variant A step 2
returns HTTP 200 with a body that is not valid JSON. -/
def otBadJsonIn : OTIn :=
  ⟨PV.str "site", .SUCCESS, .SUCCESS, .badJson, [], .SUCCESS,
   .ok (Option.none, .SUCCESS)⟩

/-- The Cookiebot cc.js body of the specified scenario. -/
def c8body : String :=
  "CookieConsentDialog.cookieTableNecessary = [[\"cookieA\",\"example.com\",\"session mgmt\",\"session\",\"HTTP\",1,\"\",\"https://example.com\"]];"

/-- Cookiebot crawl input delivering the scenario body: reachable site,
cbid found, cc.js served with status 200. -/
def c8In : CBIn := ⟨PV.str "site", .response 200 "", .SUCCESS, .response 200 c8body⟩

/-- Two collect calls sharing the identity `(name, domain, path)` but
conflicting in category name and purpose. -/
def rowA : CollectArgs :=
  ⟨PV.str "siteA", PV.str "n", PV.str "d", PV.str "/", PV.str "cat1", .ESSENTIAL,
   PV.str "purpose1", PV.none⟩

def rowB : CollectArgs :=
  ⟨PV.str "siteB", PV.str "n", PV.str "d", PV.str "/", PV.str "cat2", .ADVERTISING,
   PV.str "purpose2", PV.none⟩

/-- The single CookieRecord row of the Cookiebot scenario. -/
def c8row : CollectArgs :=
  ⟨PV.str "site", PV.str "cookieA", PV.str "example.com", PV.str "/",
   PV.str "Necessary", .ESSENTIAL, PV.str "session mgmt", PV.int 1⟩

/-- Cookiebot crawl input whose cc.js fetch returns HTTP 404. -/
def cbCcFailIn : CBIn := ⟨PV.str "site", .response 200 "", .SUCCESS, .response 404 "err"⟩

/-- OneTrust crawl input in which Variant A step 1 fails and Variant B
step 1 fails with CONN_FAILED; no extraction loop is ever entered. -/
def otNoCommitIn : OTIn :=
  ⟨PV.str "site", .SUCCESS, .PARSE_ERROR, .fetchFail .PARSE_ERROR, [], .CONN_FAILED,
   .ok (Option.none, .SUCCESS)⟩

/-- OneTrust crawl input in which Variant A step 1 fails and Variant B
step 1 fails with CONN_FAILED (its later steps are never reached). -/
def otB1FailIn : OTIn :=
  ⟨PV.str "site", .SUCCESS, .PARSE_ERROR, .fetchFail .PARSE_ERROR, [], .CONN_FAILED,
   .error ()⟩

/-- A concrete UUID in the 8-4-4-4-12 shape. -/
def c9uuid : List Char := ("aaaaaaaa-1111-2222-3333-bbbbbbbbbbbb").toList

/- ---------------------------------------------------------------------------
Helper lemmas.
--------------------------------------------------------------------------- -/

theorem applyCollects_cons (st : CollectState) (a : CollectArgs) (rest : List CollectArgs) :
    applyCollects st (a :: rest) = applyCollects (collect_cookie_dat st a) rest := rfl

theorem applyCollects_database (calls : List CollectArgs) :
    ∀ st : CollectState,
      (applyCollects st calls).database_cookie_data = st.database_cookie_data ++ calls := by
  induction calls with
  | nil => intro st; simp [applyCollects]
  | cons a rest ih =>
      intro st
      rw [applyCollects_cons, ih]
      simp [collect_cookie_dat]

theorem cbCollectLoop_ok_length (site cn : PV) (cid : CookieCategory) :
    ∀ cs : List PV, (cbCollectLoop site cn cid cs).2 = true →
      (cbCollectLoop site cn cid cs).1.length = cs.length := by
  intro cs
  induction cs with
  | nil => intro _; rfl
  | cons c rest ih =>
      intro h
      cases hp : parseCBCookie site cn cid c with
      | none => simp [cbCollectLoop, hp] at h
      | some a =>
          simp only [cbCollectLoop, hp] at h ⊢
          simp only [List.length_cons]
          rw [ih h]

theorem cbGo_completed_count (site : PV) (body : List Char) :
    ∀ (bs : List (CookieCategory × String × List Char)) (acc : List CollectArgs)
      (cnt : Nat) (calls : List CollectArgs) (n : Nat),
      cbGo site body bs acc cnt = .completed calls n →
      calls.length + cnt = acc.length + n := by
  intro bs
  induction bs with
  | nil =>
      intro acc cnt calls n h
      simp [cbGo] at h
      rw [h.1, h.2]
  | cons b rest ih =>
      intro acc cnt calls n h
      obtain ⟨cid, cn, pre⟩ := b
      cases hs : searchAssign pre body with
      | none =>
          simp only [cbGo, hs] at h
          exact ih acc cnt calls n h
      | some cap =>
          cases hl : literal_eval cap with
          | none => simp [cbGo, hs, hl] at h
          | some v =>
              cases v with
              | none => simp [cbGo, hs, hl] at h
              | str s => simp [cbGo, hs, hl] at h
              | int i => simp [cbGo, hs, hl] at h
              | list cs =>
                  by_cases hr : (cbCollectLoop site (PV.str cn) cid cs).2 = true
                  · simp only [cbGo, hs, hl, hr, if_pos] at h
                    have h2 := ih (acc ++ (cbCollectLoop site (PV.str cn) cid cs).1)
                      (cnt + cs.length) calls n h
                    have h3 := cbCollectLoop_ok_length site (PV.str cn) cid cs hr
                    simp [List.length_append, h3] at h2
                    omega
                  · simp [cbGo, hs, hl, hr] at h

theorem cookiebot_parse_count (site : PV) (body : List Char)
    (calls : List CollectArgs) (n : Nat)
    (h : cookiebot_parse_buckets site body = .completed calls n) :
    calls.length = n := by
  have h2 := cbGo_completed_count site body cbBuckets [] 0 calls n h
  simpa using h2

theorem labelsInsert_keys (k : PV × PV × PV) (cat : PV) :
    ∀ l : List ((PV × PV × PV) × List PV),
      (labelsInsert k cat l).map Prod.fst =
        if k ∈ l.map Prod.fst then l.map Prod.fst else l.map Prod.fst ++ [k] := by
  intro l
  induction l with
  | nil => simp [labelsInsert]
  | cons p rest ih =>
      obtain ⟨k', cats⟩ := p
      by_cases hk : k' = k
      · subst hk
        simp [labelsInsert]
      · have hk2 : ¬ k = k' := fun hc => hk hc.symm
        by_cases hm : k ∈ rest.map Prod.fst
        · simp [labelsInsert, hk, ih, hm, hk2]
        · simp [labelsInsert, hk, ih, hm, hk2]

theorem labelsInsert_nodup (k : PV × PV × PV) (cat : PV)
    (l : List ((PV × PV × PV) × List PV)) (h : (l.map Prod.fst).Nodup) :
    ((labelsInsert k cat l).map Prod.fst).Nodup := by
  rw [labelsInsert_keys]
  split
  · exact h
  · rename_i hnm
    simp [List.nodup_append, h, hnm]

theorem isPrefixOf_append_self (l x : List Char) : l.isPrefixOf (l ++ x) = true := by
  rw [List.isPrefixOf_iff_prefix]
  exact List.prefix_append l x

theorem isPrefixOf_append_stems (l1 : List Char) :
    ∀ (l2 x : List Char), l1.isPrefixOf l2 = false → l2.isPrefixOf l1 = false →
      l1.isPrefixOf (l2 ++ x) = false := by
  induction l1 with
  | nil => intro l2 x h1 _; simp [List.isPrefixOf] at h1
  | cons a as ih =>
      intro l2 x h1 h2
      cases l2 with
      | nil => simp [List.isPrefixOf] at h2
      | cons b bs =>
          by_cases hab : a = b
          · subst hab
            simp [List.isPrefixOf] at h1 h2 ⊢
            exact ih bs x h1 h2
          · simp [List.isPrefixOf, List.cons_append, hab]

theorem takeHex_append : ∀ (n : Nat) (u v r : List Char), takeHex n u = some v →
    takeHex n (u ++ r) = some (v ++ r) := by
  intro n
  induction n with
  | zero =>
      intro u v r h
      simp [takeHex] at h ⊢
      rw [h]
  | succ n ih =>
      intro u v r h
      cases u with
      | nil => simp [takeHex] at h
      | cons c cs =>
          by_cases hc : isHexDigitAscii c = true
          · simp only [takeHex, hc, if_pos] at h
            simp only [List.cons_append, takeHex, hc, if_pos]
            exact ih cs v r h
          · simp [takeHex, hc] at h

theorem expectDash_append (u v r : List Char) (h : expectDash u = some v) :
    expectDash (u ++ r) = some (v ++ r) := by
  cases u with
  | nil => simp [expectDash] at h
  | cons c cs =>
      by_cases hc : c = '-'
      · simp only [expectDash, hc, if_pos] at h
        simp only [List.cons_append, expectDash, hc, if_pos]
        cases h
        rfl
      · simp [expectDash, hc] at h

theorem matchUuid_append (u r : List Char) (h : matchUuid u = some []) :
    matchUuid (u ++ r) = some r := by
  unfold matchUuid at h ⊢
  simp only [Option.bind_eq_some] at h
  obtain ⟨r1, h1, r2, h2, r3, h3, r4, h4, r5, h5, r6, h6, r7, h7, r8, h8, h9⟩ := h
  rw [takeHex_append 8 u r1 r h1, Option.some_bind,
    expectDash_append r1 r2 r h2, Option.some_bind,
    takeHex_append 4 r2 r3 r h3, Option.some_bind,
    expectDash_append r3 r4 r h4, Option.some_bind,
    takeHex_append 4 r4 r5 r h5, Option.some_bind,
    expectDash_append r5 r6 r h6, Option.some_bind,
    takeHex_append 4 r6 r7 r h7, Option.some_bind,
    expectDash_append r7 r8 r h8, Option.some_bind,
    takeHex_append 12 r8 [] r h9]
  rfl

theorem variantA_fail_nil (site : PV) (rs : List RulesetResult)
    (h : (variantA_get_and_parse_json site rs).2 ≠ CrawlState.SUCCESS) :
    (variantA_get_and_parse_json site rs).1 = [] := by
  by_cases he : (rs.foldl (fun acc r => acc ++ aRulesetCalls site r) []).isEmpty
  · simp [variantA_get_and_parse_json, he]
  · exfalso
    apply h
    simp [variantA_get_and_parse_json, he]

theorem otVariantB_triedB (inp : OTIn) (st : CollectState) :
    otTriedB (onetrust_variantB inp st).1 = true := by
  by_cases h1 : inp.b1 = CrawlState.SUCCESS
  · cases hb : inp.b2 with
    | error e => simp [onetrust_variantB, h1, hb, otTriedB]
    | ok p =>
        obtain ⟨data, s2⟩ := p
        by_cases h2 : s2 = CrawlState.SUCCESS
        · by_cases h3 :
            (variantB_extract_cookies_from_dict inp.site data).state = CrawlState.SUCCESS
          · simp [onetrust_variantB, h1, hb, h2, h3, otTriedB]
          · simp [onetrust_variantB, h1, hb, h2, h3, otTriedB]
        · simp [onetrust_variantB, h1, hb, h2, otTriedB]
  · simp [onetrust_variantB, h1, otTriedB]

theorem otVariantB_fail (inp : OTIn) (st : CollectState) (s : CrawlState)
    (h : otBFailState inp = some s) :
    (onetrust_variantB inp st).1 = .done s false true := by
  by_cases h1 : inp.b1 = CrawlState.SUCCESS
  · cases hb : inp.b2 with
    | error e => simp [otBFailState, h1, hb] at h
    | ok p =>
        obtain ⟨data, s2⟩ := p
        by_cases h2 : s2 = CrawlState.SUCCESS
        · by_cases h3 :
            (variantB_extract_cookies_from_dict inp.site data).state = CrawlState.SUCCESS
          · simp [otBFailState, h1, hb, h2, h3] at h
          · simp [otBFailState, h1, hb, h2, h3] at h
            subst h
            simp [onetrust_variantB, h1, hb, h2, h3]
        · simp [otBFailState, h1, hb, h2] at h
          subst h
          simp [onetrust_variantB, h1, hb, h2]
  · simp [otBFailState, h1] at h
    subst h
    simp [onetrust_variantB, h1]

theorem otVariantB_db (inp : OTIn) (st : CollectState) (s : CrawlState)
    (rv tb : Bool) (st' : CollectState)
    (h : onetrust_variantB inp st = (.done s rv tb, st'))
    (hs : s ≠ CrawlState.SUCCESS) (hp : otB3PartialCommit inp = false) :
    st'.database_cookie_data = st.database_cookie_data := by
  by_cases h1 : inp.b1 = CrawlState.SUCCESS
  · cases hb : inp.b2 with
    | error e => simp [onetrust_variantB, h1, hb] at h
    | ok p =>
        obtain ⟨data, s2⟩ := p
        by_cases h2 : s2 = CrawlState.SUCCESS
        · by_cases h3 :
            (variantB_extract_cookies_from_dict inp.site data).state = CrawlState.SUCCESS
          · simp [onetrust_variantB, h1, hb, h2, h3] at h
            exact absurd h.1.1.symm hs
          · simp [onetrust_variantB, h1, hb, h2, h3] at h
            have hcalls : (variantB_extract_cookies_from_dict inp.site data).calls = [] := by
              unfold otB3PartialCommit at hp
              rw [hb] at hp
              simp [h2, h3] at hp
              exact hp
            rw [← h.2, hcalls]
            rfl
        · simp [onetrust_variantB, h1, hb, h2] at h
          rw [← h.2]
  · simp [onetrust_variantB, h1] at h
    rw [← h.2]

/- ---------------------------------------------------------------------------
Claim theorems.
--------------------------------------------------------------------------- -/

/-- C1: the OneTrust category resolution `category_lookup_en` is total and
deterministic — every input string yields exactly one of the six canonical
categories and no exception — and the keyword groups are checked in the fixed
priority order advertising, then necessary/essential/required, then
analytics, then functional, then uncategorized, with UNKNOWN when nothing
matches; in particular "Advertising and Security Cookies", which contains
both an advertising keyword and the lower-priority functional-group keyword
"Security", resolves to ADVERTISING. -/
theorem c1_category_lookup_total_and_prioritized :
    ∀ s : String,
      (category_lookup_en s = .ADVERTISING ∨ category_lookup_en s = .ESSENTIAL ∨
       category_lookup_en s = .ANALYTICAL ∨ category_lookup_en s = .FUNCTIONAL ∨
       category_lookup_en s = .UNCLASSIFIED ∨ category_lookup_en s = .UNKNOWN) ∧
      (advertiseSearch s = true → category_lookup_en s = .ADVERTISING) ∧
      (advertiseSearch s = false → necessarySearch s = true →
        category_lookup_en s = .ESSENTIAL) ∧
      (advertiseSearch s = false → necessarySearch s = false →
        analyticalSearch s = true → category_lookup_en s = .ANALYTICAL) ∧
      (advertiseSearch s = false → necessarySearch s = false →
        analyticalSearch s = false → functionalSearch s = true →
        category_lookup_en s = .FUNCTIONAL) ∧
      (advertiseSearch s = false → necessarySearch s = false →
        analyticalSearch s = false → functionalSearch s = false →
        uncatSearch s = true → category_lookup_en s = .UNCLASSIFIED) ∧
      (advertiseSearch s = false → necessarySearch s = false →
        analyticalSearch s = false → functionalSearch s = false →
        uncatSearch s = false → category_lookup_en s = .UNKNOWN) ∧
      category_lookup_en "Advertising and Security Cookies" = .ADVERTISING := by
  intro s
  refine ⟨?_, ?_, ?_, ?_, ?_, ?_, ?_, by decide⟩ <;>
    by_cases h1 : advertiseSearch s <;>
    by_cases h2 : necessarySearch s <;>
    by_cases h3 : analyticalSearch s <;>
    by_cases h4 : functionalSearch s <;>
    by_cases h5 : uncatSearch s <;>
    simp [category_lookup_en, h1, h2, h3, h4, h5]

/-- Witness for C1 at the concrete input of the claim. -/
theorem c1_witness :
    advertiseSearch "Advertising and Security Cookies" = true ∧
    category_lookup_en "Advertising and Security Cookies" =
      CookieCategory.ADVERTISING :=
  ⟨by decide,
   (c1_category_lookup_total_and_prioritized "Advertising and Security Cookies").2.1
     (by decide)⟩

/-- C6 counterexample: an exception outside the classes named by the claim
(for example `requests.exceptions.ChunkedEncodingError`, caught by the final
`except Exception` arm) is classified UNKNOWN by `static_get_request`,
whereas the claim's exhaustive case list ends in "otherwise it yields
SUCCESS", which would assign SUCCESS to this attempt. -/
theorem c6_counterexample :
    (static_get_request FetchAttempt.raisedOther).2 = CrawlState.UNKNOWN ∧
    fetch_spec_claimed FetchAttempt.raisedOther = CrawlState.SUCCESS ∧
    (static_get_request FetchAttempt.raisedOther).2 ≠
      fetch_spec_claimed FetchAttempt.raisedOther := by
  exact ⟨rfl, rfl, by decide⟩

/-- C6 amended: `static_get_request` classifies every attempt into exactly
one outcome — TLS failure → SSL_ERROR; DNS/connect/timeout/redirect-loop →
CONN_FAILED; missing scheme → MALFORMED_URL; status 525 → SSL_ERROR; other
status ≥ 400 → HTTP_ERROR; an HTTP-protocol exception → HTTP_ERROR; any
other exception → UNKNOWN (not SUCCESS); otherwise SUCCESS with the body. -/
theorem c6_fetch_classification_amended :
    ∀ a : FetchAttempt, static_get_request a = fetch_spec_amended a := by
  intro a
  cases a <;> rfl

/-- C5 counterexample: collecting two records that share the identity
`(name, domain, path)` but conflict in category name and purpose leaves BOTH
rows in `database_cookie_data` — the identity triple is not unique in the
collected record set, the conflicting purpose fields are silently retained
(nothing is overwritten, and `collect_cookie_dat` contains no anomaly report
of any kind). -/
theorem c5_counterexample :
    (collect_cookie_dat (collect_cookie_dat emptyCollect rowA) rowB).database_cookie_data
      = [rowA, rowB] ∧
    rowA.name = rowB.name ∧ rowA.domain = rowB.domain ∧ rowA.path = rowB.path ∧
    rowA.purpose ≠ rowB.purpose ∧
    ((collect_cookie_dat (collect_cookie_dat emptyCollect rowA) rowB).database_cookie_data.map
        (fun r => (r.name, r.domain, r.path)))
      = [(PV.str "n", PV.str "d", PV.str "/"), (PV.str "n", PV.str "d", PV.str "/")] := by
  decide

/-- C5 amended: the label map `cookie_labels` keyed by `(name, domain, path)`
keeps its keys unique under collection, and collecting two records with the
same identity but different category names yields one label entry holding
both names (the union); every collected record row, however, is appended to
`database_cookie_data` unconditionally, so conflicting non-category fields
are silently retained as duplicate rows rather than reported or merged. -/
theorem c5_label_merge_amended :
    (∀ (st : CollectState) (a : CollectArgs),
      (st.cookie_labels.map Prod.fst).Nodup →
        (((collect_cookie_dat st a).cookie_labels.map Prod.fst).Nodup ∧
         (collect_cookie_dat st a).database_cookie_data =
           st.database_cookie_data ++ [a])) ∧
    (∀ a b : CollectArgs, a.name = b.name → a.domain = b.domain → a.path = b.path →
      a.cat_name ≠ b.cat_name →
      (collect_cookie_dat (collect_cookie_dat emptyCollect a) b).cookie_labels
        = [((a.name, a.domain, a.path), [a.cat_name, b.cat_name])]) := by
  constructor
  · intro st a h
    exact ⟨labelsInsert_nodup _ _ _ h, rfl⟩
  · intro a b h1 h2 h3 h4
    have h4' : ¬ b.cat_name = a.cat_name := fun hc => h4 hc.symm
    simp [collect_cookie_dat, emptyCollect, labelsInsert, ← h1, ← h2, ← h3, h4']

/-- Witness for C5 at the two concrete conflicting rows. -/
theorem c5_witness :
    ((collect_cookie_dat emptyCollect rowA).cookie_labels.map Prod.fst).Nodup ∧
    (collect_cookie_dat (collect_cookie_dat emptyCollect rowA) rowB).cookie_labels
      = [((rowA.name, rowA.domain, rowA.path), [rowA.cat_name, rowB.cat_name])] :=
  ⟨(c5_label_merge_amended.1 emptyCollect rowA (by decide)).1,
   c5_label_merge_amended.2 rowA rowB (by decide) (by decide) (by decide) (by decide)⟩

/-- C10: in the Cookiebot extractor, whenever the GET of the per-id cc.js
resource is classified non-SUCCESS (HTTP_ERROR, SSL_ERROR, CONN_FAILED,
MALFORMED_URL or UNKNOWN), the outcome recorded for the site is always
LIBRARY_ERROR, discarding the fetch's own classification. -/
theorem c10_cc_fetch_failure_always_library_error :
    ∀ (inp : CBIn) (st : CollectState),
      (static_get_request inp.initialFetch).2 = CrawlState.SUCCESS →
      inp.cbid = CrawlState.SUCCESS →
      (static_get_request inp.ccFetch).2 ≠ CrawlState.SUCCESS →
      (cookiebot_scrape inp st).1 = .done CrawlState.LIBRARY_ERROR false := by
  intro inp st h1 h2 h3
  simp [cookiebot_scrape, h1, h2, h3]

/-- Witness for C10: a cc.js fetch answered with HTTP 404 (classified
HTTP_ERROR) is recorded as LIBRARY_ERROR. -/
theorem c10_witness :
    (cookiebot_scrape cbCcFailIn emptyCollect).1 =
      .done CrawlState.LIBRARY_ERROR false :=
  c10_cc_fetch_failure_always_library_error cbCcFailIn emptyCollect
    (by decide) (by decide) (by decide)

/-- C7 (code bug): the claim — no exception propagates out of
`scrape_website` — matches the intent documented at `CrawlState.UNKNOWN`
("Unaccounted for Error") and the broad `except` arms of every other
OneTrust step, but `variantA_try_retrieve_ruleset_id` calls `json.loads`
OUTSIDE its `try` block (onetrust_scraper.py line 152): when the ruleset
fetch returns HTTP 200 with a non-JSON body, the `JSONDecodeError` escapes
`scrape_website` uncaught (and would abort the crawl loop of
run_scraper.py), instead of being recorded as UNKNOWN. -/
theorem c7_json_decode_error_escapes_scrape :
    variantA_try_retrieve_ruleset_id A2In.badJson = Except.error () ∧
    onetrust_scrape otBadJsonIn emptyCollect = (OTResult.raisedEx false, emptyCollect) := by
  exact ⟨rfl, by decide⟩

/-- C8: on the specified cc.js body (a `cookieTableNecessary` assignment
holding one 8-tuple, the other four bucket patterns absent), the Cookiebot
crawl extracts exactly one record with category ESSENTIAL, name "cookieA"
and domain "example.com", and records SUCCESS. -/
theorem c8_cookiebot_scenario :
    (cookiebot_scrape c8In emptyCollect).1 = .done CrawlState.SUCCESS true ∧
    (cookiebot_scrape c8In emptyCollect).2.database_cookie_data = [c8row] ∧
    c8row.cat_id = CookieCategory.ESSENTIAL ∧
    c8row.name = PV.str "cookieA" ∧ c8row.domain = PV.str "example.com" := by
  refine ⟨by decide, by decide, rfl, rfl, rfl⟩

/-- C2 counterexample: a OneTrust crawl whose Variant B extraction runs to
completion over an empty `Groups` array — zero records, no exception —
records MALFORM_RESP, not NO_COOKIES, refuting the claimed equivalence
"NO_COOKIES is recorded iff the extraction logic ran to completion with
zero records" for the OneTrust extractor. -/
theorem c2_counterexample :
    (variantB_extract_cookies_from_dict (PV.str "site") (some [])).aborted = false ∧
    (variantB_extract_cookies_from_dict (PV.str "site") (some [])).calls = [] ∧
    (onetrust_scrape otZeroIn emptyCollect).1 =
      OTResult.done CrawlState.MALFORM_RESP false true ∧
    CrawlState.MALFORM_RESP ≠ CrawlState.NO_COOKIES := by
  decide

/-- C3 counterexample: a OneTrust crawl whose Variant B extraction collects
the first group's cookie and then raises `KeyError` on the second group
(missing `Cookies` key) records the non-SUCCESS outcome PARSE_ERROR while
one new CookieRecord remains committed to `database_cookie_data` — failure
is not atomic. -/
theorem c3_counterexample :
    (onetrust_scrape otPartialIn emptyCollect).1 =
      OTResult.done CrawlState.PARSE_ERROR false true ∧
    (onetrust_scrape otPartialIn emptyCollect).2.database_cookie_data.length = 1 := by
  decide

/-- C2 amended: SUCCESS is recorded iff the extraction logic ran to
completion with more than zero records, and the recorded cookie count is the
number of records collected; when extraction completes with zero records,
Cookiebot and Termly record NO_COOKIES, while OneTrust records PARSE_ERROR
(Variant A) or MALFORM_RESP (Variant B) and never NO_COOKIES.  (A Cookiebot
or Termly walk interrupted by an exception records MALFORM_RESP resp.
PARSE_ERROR instead — the completion hypotheses below.) -/
theorem c2_success_iff_records_amended :
    (∀ (site : PV) (body : List Char) (calls : List CollectArgs) (n : Nat),
      cookiebot_parse_buckets site body = .completed calls n →
        (n = calls.length ∧
         (cookiebot_outcome_of_parse (.completed calls n) =
            .done CrawlState.SUCCESS true ↔ calls ≠ []) ∧
         (cookiebot_outcome_of_parse (.completed calls n) =
            .done CrawlState.NO_COOKIES false ↔ calls = []))) ∧
    (∀ calls : List CollectArgs,
      cookiebot_outcome_of_parse (.excepted calls) =
        .done CrawlState.MALFORM_RESP false) ∧
    (∀ (url : PV) (buckets : List (String × TermlyEntry)),
      ((termlyWalk url buckets).2 = false →
        (((parse_termly_cookie_json url (some buckets)).2 = CrawlState.SUCCESS ↔
           (parse_termly_cookie_json url (some buckets)).1 ≠ []) ∧
         ((parse_termly_cookie_json url (some buckets)).2 = CrawlState.NO_COOKIES ↔
           (parse_termly_cookie_json url (some buckets)).1 = []))) ∧
      ((termlyWalk url buckets).2 = true →
        (parse_termly_cookie_json url (some buckets)).2 = CrawlState.PARSE_ERROR)) ∧
    (∀ url : PV,
      parse_termly_cookie_json url Option.none = ([], CrawlState.MALFORM_RESP)) ∧
    (∀ (site : PV) (rs : List RulesetResult),
      ((variantA_get_and_parse_json site rs).2 = CrawlState.SUCCESS ↔
        (variantA_get_and_parse_json site rs).1 ≠ []) ∧
      ((variantA_get_and_parse_json site rs).2 = CrawlState.SUCCESS ∨
       (variantA_get_and_parse_json site rs).2 = CrawlState.PARSE_ERROR)) ∧
    (∀ (site : PV) (data : Option (List OTGroupB)),
      ((variantB_extract_cookies_from_dict site data).state = CrawlState.SUCCESS ↔
        ((variantB_extract_cookies_from_dict site data).aborted = false ∧
         (variantB_extract_cookies_from_dict site data).calls ≠ [])) ∧
      ((variantB_extract_cookies_from_dict site data).aborted = false →
        (variantB_extract_cookies_from_dict site data).calls = [] →
        (variantB_extract_cookies_from_dict site data).state = CrawlState.MALFORM_RESP) ∧
      (variantB_extract_cookies_from_dict site data).state ≠ CrawlState.NO_COOKIES) := by
  refine ⟨?_, fun _ => rfl, ?_, fun _ => rfl, ?_, ?_⟩
  · intro site body calls n h
    have hc := cookiebot_parse_count site body calls n h
    refine ⟨hc.symm, ?_, ?_⟩ <;>
      by_cases he : calls = [] <;>
        simp [cookiebot_outcome_of_parse, ← hc, he, List.length_eq_zero]
  · intro url buckets
    constructor
    · intro hab
      by_cases he : (termlyWalk url buckets).1.isEmpty
      · have he2 := List.isEmpty_iff.mp he
        constructor <;> simp [parse_termly_cookie_json, hab, he, he2]
      · have he2 : (termlyWalk url buckets).1 ≠ [] := by
          intro hc
          rw [← List.isEmpty_iff] at hc
          exact he hc
        constructor <;> simp [parse_termly_cookie_json, hab, he, he2]
    · intro hab
      simp [parse_termly_cookie_json, hab]
  · intro site rs
    by_cases he : (rs.foldl (fun acc r => acc ++ aRulesetCalls site r) []).isEmpty
    · constructor <;> simp [variantA_get_and_parse_json, he]
    · have he2 := he
      rw [List.isEmpty_iff] at he2
      constructor <;> simp [variantA_get_and_parse_json, he, he2]
  · intro site data
    cases data with
    | none =>
        refine ⟨by simp [variantB_extract_cookies_from_dict], ?_,
          by simp [variantB_extract_cookies_from_dict]⟩
        intro h
        simp [variantB_extract_cookies_from_dict] at h
    | some gs =>
        by_cases hab : (bGroupsLoop site gs).2 = true
        · refine ⟨?_, ?_, ?_⟩ <;>
            simp [variantB_extract_cookies_from_dict, hab]
        · by_cases he : (bGroupsLoop site gs).1.isEmpty
          · have he2 := he
            rw [List.isEmpty_iff] at he2
            refine ⟨?_, ?_, ?_⟩ <;>
              simp [variantB_extract_cookies_from_dict, hab, he, he2]
          · have he2 : (bGroupsLoop site gs).1 ≠ [] := by
              intro hc
              rw [← List.isEmpty_iff] at hc
              exact he hc
            refine ⟨?_, ?_, ?_⟩ <;>
              simp [variantB_extract_cookies_from_dict, hab, he, he2]

/-- Witness for C2 at the one-record Cookiebot parse of the scenario body. -/
theorem c2_witness :
    cookiebot_outcome_of_parse (CBParseOut.completed [c8row] 1) =
      .done CrawlState.SUCCESS true := by
  have h := c2_success_iff_records_amended.1 (PV.str "site") c8body.toList [c8row] 1
    (by decide)
  exact h.2.1.mpr (by decide)



/-- C3 amended: a crawl whose recorded terminal outcome is not SUCCESS
commits zero new CookieRecords, UNLESS the failure is an exception raised
inside the record-collection loop itself (OneTrust Variant B's extraction,
the Cookiebot bucket loop, or the Termly cookie walk) after some records
were already collected — in that case the records collected before the
failure remain committed; the final conjunct exhibits the Termly case
concretely (PARSE_ERROR recorded with one row committed). -/
theorem c3_failure_atomicity_amended :
    (∀ (inp : OTIn) (st : CollectState) (s : CrawlState) (rv tb : Bool)
       (st' : CollectState),
      onetrust_scrape inp st = (.done s rv tb, st') → s ≠ CrawlState.SUCCESS →
      otB3PartialCommit inp = false →
      st'.database_cookie_data = st.database_cookie_data) ∧
    (∀ (inp : CBIn) (st : CollectState) (s : CrawlState) (rv : Bool)
       (st' : CollectState),
      cookiebot_scrape inp st = (.done s rv, st') → s ≠ CrawlState.SUCCESS →
      cbParsePartialCommit inp = false →
      st'.database_cookie_data = st.database_cookie_data) ∧
    (∀ (rsState : CrawlState) (payload : Option (List (String × TermlyEntry)))
       (url : PV) (st : CollectState) (s : CrawlState) (rv : Bool)
       (st' : CollectState),
      termly_scrape rsState payload url st = ((s, rv), st') →
      s ≠ CrawlState.SUCCESS →
      termlyMidCommit payload url = false →
      st'.database_cookie_data = st.database_cookie_data) ∧
    ((termly_scrape CrawlState.SUCCESS (some termlyBadPayload) (PV.str "u")
        emptyCollect).1 = (CrawlState.PARSE_ERROR, false) ∧
     (termly_scrape CrawlState.SUCCESS (some termlyBadPayload) (PV.str "u")
        emptyCollect).2.database_cookie_data.length = 1) := by
  refine ⟨?_, ?_, ?_, by decide⟩
  · intro inp st s rv tb st' h hs hp
    by_cases hi : inp.initial = CrawlState.SUCCESS
    · by_cases ha1 : inp.a1 = CrawlState.SUCCESS
      · cases ha2 : variantA_try_retrieve_ruleset_id inp.a2 with
        | error e => simp [onetrust_scrape, hi, ha1, ha2] at h
        | ok p =>
            obtain ⟨ids, s2⟩ := p
            by_cases hs2 : s2 = CrawlState.SUCCESS
            · by_cases ha3 :
                  (variantA_get_and_parse_json inp.site inp.a3).2 = CrawlState.SUCCESS
              · simp [onetrust_scrape, hi, ha1, ha2, hs2, ha3] at h
                exact absurd h.1.1.symm hs
              · have hnil := variantA_fail_nil inp.site inp.a3 ha3
                have h' : onetrust_variantB inp
                    (applyCollects st (variantA_get_and_parse_json inp.site inp.a3).1) =
                    (.done s rv tb, st') := by
                  simpa [onetrust_scrape, hi, ha1, ha2, hs2, ha3] using h
                rw [hnil] at h'
                simp only [applyCollects, List.foldl_nil] at h'
                exact otVariantB_db inp st s rv tb st' h' hs hp
            · have h' : onetrust_variantB inp st = (.done s rv tb, st') := by
                simpa [onetrust_scrape, hi, ha1, ha2, hs2] using h
              exact otVariantB_db inp st s rv tb st' h' hs hp
      · have h' : onetrust_variantB inp st = (.done s rv tb, st') := by
          simpa [onetrust_scrape, hi, ha1] using h
        exact otVariantB_db inp st s rv tb st' h' hs hp
    · simp [onetrust_scrape, hi] at h
      rw [← h.2]
  · intro inp st s rv st' h hs hp
    unfold cookiebot_scrape at h
    unfold cbParsePartialCommit at hp
    cases hr1 : static_get_request inp.initialFetch with
    | mk b1 s1 =>
      rw [hr1] at h
      cases hr2 : static_get_request inp.ccFetch with
      | mk b2 s2 =>
        rw [hr2] at h hp
        dsimp only at h hp
        by_cases hs1 : s1 = CrawlState.SUCCESS
        · rw [if_neg (by simp [hs1])] at h
          by_cases h2 : inp.cbid = CrawlState.SUCCESS
          · rw [if_neg (by simp [h2])] at h
            by_cases hs2 : s2 = CrawlState.SUCCESS
            · rw [if_neg (by simp [hs2])] at h
              cases b2 with
              | none =>
                  dsimp only at h
                  injection h with h1 h2'
                  rw [← h2']
              | some body =>
                  dsimp only at h hp
                  rw [hs2] at hp
                  simp only [beq_self_eq_true, Bool.true_and] at hp
                  by_cases hc1 :
                      hasSubstr (("CookieConsent.setOutOfRegion").toList) body.toList = true
                  · rw [if_pos hc1] at h
                    injection h with h1 h2'
                    rw [← h2']
                  · rw [if_neg hc1] at h
                    by_cases hc2 : searchDomainWarning body.toList = true
                    · rw [if_pos hc2] at h
                      injection h with h1 h2'
                      rw [← h2']
                    · rw [if_neg hc2] at h
                      by_cases hc3 : body.toList.all isPySpace = true
                      · rw [if_pos hc3] at h
                        injection h with h1 h2'
                        rw [← h2']
                      · rw [if_neg hc3] at h
                        cases hout : cookiebot_parse_buckets inp.site body.toList with
                        | excepted calls =>
                            rw [hout] at h hp
                            dsimp only [cookiebot_outcome_of_parse, cbParseCalls] at h hp
                            simp at hp
                            have hcalls : calls = [] := hp
                            injection h with h1 h2'
                            rw [← h2', hcalls]
                            rfl
                        | completed calls n =>
                            rw [hout] at h
                            dsimp only [cookiebot_outcome_of_parse, cbParseCalls] at h
                            by_cases hn : n = 0
                            · have hcalls : calls = [] := by
                                have hcl := cookiebot_parse_count inp.site body.toList
                                  calls n hout
                                rw [hn] at hcl
                                exact List.length_eq_zero.mp hcl
                              rw [if_pos hn] at h
                              injection h with h1 h2'
                              rw [← h2', hcalls]
                              rfl
                            · rw [if_neg hn] at h
                              injection h with h1 h2'
                              injection h1 with hcs hrv
                              exact absurd hcs.symm hs
            · rw [if_pos (by simp [hs2])] at h
              injection h with h1 h2'
              rw [← h2']
          · rw [if_pos (by simp [h2])] at h
            injection h with h1 h2'
            rw [← h2']
        · rw [if_pos (by simp [hs1])] at h
          injection h with h1 h2'
          rw [← h2']
  · intro rsState payload url st s rv st' h hs hmc
    unfold termly_scrape at h
    unfold termlyMidCommit at hmc
    by_cases hr : rsState = CrawlState.SUCCESS
    · rw [if_neg (by simp [hr])] at h
      cases payload with
      | none =>
          dsimp only [parse_termly_cookie_json] at h
          injection h with h1 h2'
          rw [← h2']
          rfl
      | some buckets =>
          dsimp only [parse_termly_cookie_json] at h
          dsimp only at hmc
          by_cases hab : (termlyWalk url buckets).2 = true
          · rw [if_pos hab] at h
            rw [hab] at hmc
            simp at hmc
            injection h with h1 h2'
            rw [← h2', hmc]
            rfl
          · rw [if_neg hab] at h
            by_cases he : (termlyWalk url buckets).1.isEmpty = true
            · rw [if_pos he] at h
              injection h with h1 h2'
              rw [← h2']
              rfl
            · rw [if_neg he] at h
              injection h with h1 h2'
              injection h1 with hss hrv
              exact absurd hss.symm hs
    · rw [if_pos (by simp [hr])] at h
      injection h with h1 h2'
      rw [← h2']

/-- Witness for C3: a OneTrust crawl failing before any collection loop
(Variant A step 1 and Variant B step 1 both fail) leaves the collected data
unchanged. -/
theorem c3_witness :
    (onetrust_scrape otNoCommitIn emptyCollect).2.database_cookie_data =
      emptyCollect.database_cookie_data :=
  c3_failure_atomicity_amended.1 otNoCommitIn emptyCollect CrawlState.CONN_FAILED
    false true (onetrust_scrape otNoCommitIn emptyCollect).2
    (by decide) (by decide) (by decide)

/-- C4: whenever the initial fetch succeeded and Variant A fails at any of
its three steps with a classified outcome (step 1 or step 2 returning a
non-SUCCESS state, or step 3 completing with zero cookies), Variant B is
attempted before the site is marked failed; and when Variant B then also
fails with a classified outcome, the single outcome recorded for the site
is Variant B's failing state, not Variant A's. -/
theorem c4_variantA_failure_falls_through_to_B :
    ∀ (inp : OTIn) (st : CollectState),
      otAFailsClassified inp = true →
      (otTriedB (onetrust_scrape inp st).1 = true ∧
       ∀ s : CrawlState, otBFailState inp = some s →
         (onetrust_scrape inp st).1 = .done s false true) := by
  intro inp st hA
  unfold otAFailsClassified at hA
  simp only [Bool.and_eq_true, Bool.or_eq_true, beq_iff_eq, Bool.not_eq_true',
    beq_eq_false_iff_ne, ne_eq] at hA
  obtain ⟨hi, hrest⟩ := hA
  by_cases ha1 : inp.a1 = CrawlState.SUCCESS
  · cases ha2 : variantA_try_retrieve_ruleset_id inp.a2 with
    | error e =>
        rw [ha2] at hrest
        simp [ha1] at hrest
    | ok p =>
        obtain ⟨ids, s2⟩ := p
        rw [ha2] at hrest
        by_cases hs2 : s2 = CrawlState.SUCCESS
        · have ha3 :
              (variantA_get_and_parse_json inp.site inp.a3).2 ≠ CrawlState.SUCCESS := by
            simp [ha1, hs2] at hrest
            simpa using hrest
          have hnil := variantA_fail_nil inp.site inp.a3 ha3
          have hred : onetrust_scrape inp st =
              onetrust_variantB inp
                (applyCollects st (variantA_get_and_parse_json inp.site inp.a3).1) := by
            simp [onetrust_scrape, hi, ha1, ha2, hs2, ha3]
          rw [hnil] at hred
          simp only [applyCollects, List.foldl_nil] at hred
          constructor
          · rw [hred]
            exact otVariantB_triedB inp st
          · intro s hbs
            rw [hred]
            exact otVariantB_fail inp st s hbs
        · have hred : onetrust_scrape inp st = onetrust_variantB inp st := by
            simp [onetrust_scrape, hi, ha1, ha2, hs2]
          constructor
          · rw [hred]
            exact otVariantB_triedB inp st
          · intro s hbs
            rw [hred]
            exact otVariantB_fail inp st s hbs
  · have hred : onetrust_scrape inp st = onetrust_variantB inp st := by
      simp [onetrust_scrape, hi, ha1]
    constructor
    · rw [hred]
      exact otVariantB_triedB inp st
    · intro s hbs
      rw [hred]
      exact otVariantB_fail inp st s hbs

/-- Witness for C4: Variant A step 1 fails with PARSE_ERROR, Variant B
step 1 fails with CONN_FAILED; Variant B is attempted and the recorded
outcome is Variant B's CONN_FAILED. -/
theorem c4_witness :
    otTriedB (onetrust_scrape otB1FailIn emptyCollect).1 = true ∧
    (onetrust_scrape otB1FailIn emptyCollect).1 =
      .done CrawlState.CONN_FAILED false true :=
  have h := c4_variantA_failure_falls_through_to_B otB1FailIn emptyCollect (by decide)
  ⟨h.1, h.2 CrawlState.CONN_FAILED (by decide)⟩

theorem pattern_match_self (stem u : List Char) (hu : matchUuid u = some []) :
    variantB_pattern_match stem (stem ++ (u ++ (".js").toList)) = true := by
  unfold variantB_pattern_match
  rw [isPrefixOf_append_self, List.drop_left, matchUuid_append u (".js").toList hu]
  decide

theorem pattern_match_other_stem (stem1 stem2 u t : List Char)
    (h1 : stem1.isPrefixOf stem2 = false) (h2 : stem2.isPrefixOf stem1 = false) :
    variantB_pattern_match stem1 (stem2 ++ (u ++ t)) = false := by
  unfold variantB_pattern_match
  rw [isPrefixOf_append_stems stem1 stem2 (u ++ t) h1 h2]
  rfl

theorem scriptPath_single (s : List Char) :
    variantB_retrieve_script_path [some s] =
      if variantB_patterns.any (fun stem => variantB_pattern_match stem s) then
        CrawlState.SUCCESS
      else CrawlState.PARSE_ERROR := rfl

theorem anyPatterns_unfold (s : List Char) :
    variantB_patterns.any (fun stem => variantB_pattern_match stem s) =
      (variantB_pattern_match v2_cookielaw_stem s ||
        (variantB_pattern_match v2_optanon_stem s ||
          (variantB_pattern_match v2_cookiepro_cdn_stem s ||
            (variantB_pattern_match v2_cookiepro_cdn_stem s || false)))) := rfl

/-- C9: the Variant B script-URL discovery recognizes `src` values on
cdn.cookielaw.org, optanon.blob.core.windows.net and
cookie-cdn.cookiepro.com, but NOT on cookiepro.blob.core.windows.net —
the pattern list contains the cookie-cdn.cookiepro.com pattern twice in
place of the defined cookiepro-blob pattern — so a page whose only consent
script `src` is `https://cookiepro.blob.core.windows.net/consent/{uuid}.js`
produces PARSE_ERROR in step 1, even though the (unused) blob pattern would
match that URL. -/
theorem c9_variantB_patterns_miss_cookiepro_blob :
    variantB_patterns = [v2_cookielaw_stem, v2_optanon_stem, v2_cookiepro_cdn_stem,
      v2_cookiepro_cdn_stem] ∧
    ∀ u : List Char, matchUuid u = some [] →
      (variantB_pattern_match v2_cookiepro_blob_stem
          (v2_cookiepro_blob_stem ++ (u ++ (".js").toList)) = true ∧
       variantB_retrieve_script_path
          [some (v2_cookiepro_blob_stem ++ (u ++ (".js").toList))] =
            CrawlState.PARSE_ERROR ∧
       variantB_retrieve_script_path
          [some (v2_cookielaw_stem ++ (u ++ (".js").toList))] = CrawlState.SUCCESS ∧
       variantB_retrieve_script_path
          [some (v2_optanon_stem ++ (u ++ (".js").toList))] = CrawlState.SUCCESS ∧
       variantB_retrieve_script_path
          [some (v2_cookiepro_cdn_stem ++ (u ++ (".js").toList))] =
            CrawlState.SUCCESS) := by
  refine ⟨rfl, ?_⟩
  intro u hu
  have hblob := pattern_match_self v2_cookiepro_blob_stem u hu
  have hcl := pattern_match_self v2_cookielaw_stem u hu
  have hop := pattern_match_self v2_optanon_stem u hu
  have hcd := pattern_match_self v2_cookiepro_cdn_stem u hu
  have hclb := pattern_match_other_stem v2_cookielaw_stem v2_cookiepro_blob_stem u
    (".js").toList (by decide) (by decide)
  have hopb := pattern_match_other_stem v2_optanon_stem v2_cookiepro_blob_stem u
    (".js").toList (by decide) (by decide)
  have hcdb := pattern_match_other_stem v2_cookiepro_cdn_stem v2_cookiepro_blob_stem u
    (".js").toList (by decide) (by decide)
  have hclo := pattern_match_other_stem v2_cookielaw_stem v2_optanon_stem u
    (".js").toList (by decide) (by decide)
  have hclc := pattern_match_other_stem v2_cookielaw_stem v2_cookiepro_cdn_stem u
    (".js").toList (by decide) (by decide)
  have hopc := pattern_match_other_stem v2_optanon_stem v2_cookiepro_cdn_stem u
    (".js").toList (by decide) (by decide)
  refine ⟨hblob, ?_, ?_, ?_, ?_⟩
  · rw [scriptPath_single, anyPatterns_unfold, hclb, hopb, hcdb]
    rfl
  · rw [scriptPath_single, anyPatterns_unfold, hcl]
    rfl
  · rw [scriptPath_single, anyPatterns_unfold, hclo, hop]
    rfl
  · rw [scriptPath_single, anyPatterns_unfold, hclc, hopc, hcd]
    rfl

/-- Witness for C9 at a concrete UUID. -/
theorem c9_witness :
    variantB_retrieve_script_path
      [some (v2_cookiepro_blob_stem ++ (c9uuid ++ (".js").toList))] =
        CrawlState.PARSE_ERROR :=
  ((c9_variantB_patterns_miss_cookiepro_blob.2 c9uuid (by decide)).2).1
